import Mathlib

/-
Verification of the JAM (Junk Accumulation Model) core: the ODE vector
field `jam_model`, the simulation runner `run_simulation`, and the derived
effective-reproduction-number series, shallowly embedded from
src/jam_app.py over the rationals (exact arithmetic).
-/

/-- State vector (S, I, R) of the three-compartment model. -/
abbrev Vec3 := ℚ × ℚ × ℚ

/-- The JAM vector field, from src/jam_app.py lines 51-56:
dSdt = Λ - β*S*I - μ_S*S, dIdt = (1+θ)*β*S*I - (γ+μ_I)*I,
dRdt = γ*I + μ_S*S + μ_I*I. -/
def jam_model (t : ℚ) (y : Vec3) (Λ β θ γ μ_S μ_I : ℚ) : Vec3 :=
  let S := y.1
  let I := y.2.1
  (Λ - β * S * I - μ_S * S,
   (1 + θ) * β * S * I - (γ + μ_I) * I,
   γ * I + μ_S * S + μ_I * I)

/-- Embedding of `np.linspace(0, T, n)`: n evenly spaced points from 0 to T,
element i being i*T/(n-1). -/
def linspace (T : ℚ) (n : ℕ) : List ℚ :=
  (List.range n).map fun i : ℕ => (i : ℚ) * T / ((n : ℚ) - 1)

/-- Pointwise effective reproduction number, from src/jam_app.py line 64:
Rt = ((1 + θ) * β * S) / (γ + μ_I). -/
def rtPoint (θ β γ μ_I S : ℚ) : ℚ :=
  ((1 + θ) * β * S) / (γ + μ_I)

/-- The derived Rt series: the elementwise numpy expression
`((1 + θ) * β * S) / (γ + μ_I)` applied to the S trajectory array. -/
def Rt_series (θ β γ μ_I : ℚ) (S : List ℚ) : List ℚ :=
  S.map (rtPoint θ β γ μ_I)

/-- The five arrays returned by `run_simulation`: t_eval, S, I, R, Rt. -/
structure SimResult where
  t : List ℚ
  S : List ℚ
  I : List ℚ
  R : List ℚ
  Rt : List ℚ

/-- The type of the external ODE solver (`scipy.integrate.solve_ivp`):
given the vector field, the initial state and the requested sample times,
it returns the sampled trajectory `sol.y` (one state per sample time
reached; on early termination this list is shorter than the request). -/
abbrev IvpSolver := (ℚ → Vec3 → Vec3) → Vec3 → List ℚ → List Vec3

/-- Embedding of `run_simulation` (src/jam_app.py lines 59-65),
parameterized by the external solver: build t_eval = linspace(0, T, 1000),
call the solver on `jam_model` with the parameters, split the trajectory
into S, I, R and compute Rt pointwise from the same S trajectory. -/
def run_simulation (ivpSolver : IvpSolver) (y0 : Vec3)
    (Λ β θ γ μ_S μ_I T : ℚ) : SimResult :=
  let t_eval := linspace T 1000
  let sol := ivpSolver (fun t y => jam_model t y Λ β θ γ μ_S μ_I) y0 t_eval
  let S := sol.map (·.1)
  let I := sol.map (·.2.1)
  let R := sol.map (·.2.2)
  let Rt := Rt_series θ β γ μ_I S
  ⟨t_eval, S, I, R, Rt⟩

/-- Modelled from the spec: the repository calls `scipy.integrate.solve_ivp`
(an external library, not under src/), whose default method is the explicit
embedded Runge-Kutta pair RK45 (Dormand-Prince). This is one Dormand-Prince
step of size h for the vector field f from state y at time t. -/
def rk45Step (f : ℚ → Vec3 → Vec3) (t : ℚ) (y : Vec3) (h : ℚ) : Vec3 :=
  let k1 := f t y
  let k2 := f (t + h * (1/5)) (y + h • ((1/5 : ℚ) • k1))
  let k3 := f (t + h * (3/10)) (y + h • ((3/40 : ℚ) • k1 + (9/40 : ℚ) • k2))
  let k4 := f (t + h * (4/5))
    (y + h • ((44/45 : ℚ) • k1 + (-56/15 : ℚ) • k2 + (32/9 : ℚ) • k3))
  let k5 := f (t + h * (8/9))
    (y + h • ((19372/6561 : ℚ) • k1 + (-25360/2187 : ℚ) • k2 +
      (64448/6561 : ℚ) • k3 + (-212/729 : ℚ) • k4))
  let k6 := f (t + h)
    (y + h • ((9017/3168 : ℚ) • k1 + (-355/33 : ℚ) • k2 +
      (46732/5247 : ℚ) • k3 + (49/176 : ℚ) • k4 + (-5103/18656 : ℚ) • k5))
  y + h • ((35/384 : ℚ) • k1 + (500/1113 : ℚ) • k3 + (125/192 : ℚ) • k4 +
    (-2187/6784 : ℚ) • k5 + (11/84 : ℚ) • k6)

/-- Modelled from the spec: successful integration samples the trajectory
at each requested time, advancing from one sample time to the next with a
Runge-Kutta step (adaptive sub-stepping and dense output are abstracted
into one step per sampling interval; this is exact for the claims proved
here, which concern a vector field the stepper integrates exactly). -/
def odeSolve (f : ℚ → Vec3 → Vec3) : ℚ → Vec3 → List ℚ → List Vec3
  | _, _, [] => []
  | t, y, t' :: rest =>
    let y' := rk45Step f t y (t' - t)
    y' :: odeSolve f t' y' rest

/-- Modelled from the spec: a run of `run_simulation` in which solve_ivp
completes the whole horizon, using the Runge-Kutta sampling model. -/
def run_simulation_model (y0 : Vec3) (Λ β θ γ μ_S μ_I T : ℚ) : SimResult :=
  run_simulation (fun f y ts => odeSolve f 0 y ts) y0 Λ β θ γ μ_S μ_I T

/-- Modelled from the spec: a run in which solve_ivp stops right after the
initial time (integrator failure): `sol.y` then holds only the samples
actually reached, here just the initial state. -/
def earlyStopSolver : IvpSolver := fun _ y0 _ => [y0]

/-- Modelled from the spec: a run in which solve_ivp reaches every
requested sample time (a completed integration), abstracting the sampled
values; used only for length facts. -/
def fullLengthSolver : IvpSolver := fun _ y0 ts => ts.map fun _ => y0

/-- The parameter set held by the six sidebar widgets. -/
structure ParamSet where
  Λ : ℚ
  β : ℚ
  θ : ℚ
  γ : ℚ
  μ_S : ℚ
  μ_I : ℚ

/-- The "Reset to paper baseline" button, src/jam_app.py lines 30-36:
it writes Λ=2262, β=9/(S0*I0), θ=29, γ=0, μ_S=250/S0, μ_I=450/I0
into the widget state. -/
def resetToPaperBaseline (S0 I0 : ℚ) : ParamSet :=
  ⟨2262, 9 / (S0 * I0), 29, 0, 250 / S0, 450 / I0⟩

/-- The slider default values, src/jam_app.py lines 39-44:
Λ=2262, β=9/(S0*I0), θ=29, γ=0, μ_S=450/S0, μ_I=250/I0. -/
def sliderDefaults (S0 I0 : ℚ) : ParamSet :=
  ⟨2262, 9 / (S0 * I0), 29, 0, 450 / S0, 250 / I0⟩

/-- C1: the vector field returns exactly the three documented derivatives
and is independent of t. -/
theorem jam_model_eqs (t t' : ℚ) (y : Vec3) (Λ β θ γ μ_S μ_I : ℚ) :
    jam_model t y Λ β θ γ μ_S μ_I =
      (Λ - β * y.1 * y.2.1 - μ_S * y.1,
       (1 + θ) * β * y.1 * y.2.1 - (γ + μ_I) * y.2.1,
       γ * y.2.1 + μ_S * y.1 + μ_I * y.2.1) ∧
    jam_model t y Λ β θ γ μ_S μ_I = jam_model t' y Λ β θ γ μ_S μ_I :=
  ⟨rfl, rfl⟩

/-- C2: at every sample index, the Rt series returned by `run_simulation`
equals ((1+θ)·β·S[i]) / (γ+μ_I) computed from the S trajectory the same
run returns. -/
theorem run_simulation_Rt_pointwise (ivpSolver : IvpSolver) (y0 : Vec3)
    (Λ β θ γ μ_S μ_I T : ℚ) (i : ℕ) (s : ℚ)
    (h : (run_simulation ivpSolver y0 Λ β θ γ μ_S μ_I T).S[i]? = some s) :
    (run_simulation ivpSolver y0 Λ β θ γ μ_S μ_I T).Rt[i]? =
      some (((1 + θ) * β * s) / (γ + μ_I)) := by
  simp only [run_simulation, Rt_series] at h ⊢
  rw [List.getElem?_map, h]
  simp [rtPoint]

/-- Witness for C2: a concrete run whose S trajectory starts at 1 has
Rt[0] = ((1+0)·1·1)/(0+1). -/
theorem run_simulation_Rt_pointwise_w :
    (run_simulation earlyStopSolver (1, 0, 0) 0 1 0 0 0 1 1).Rt[0]? =
      some (((1 + 0) * 1 * 1) / (0 + 1)) :=
  run_simulation_Rt_pointwise earlyStopSolver (1, 0, 0) 0 1 0 0 0 1 1 0 1
    (by simp [run_simulation, earlyStopSolver])

/-- C3 (evaluation at the bug): the reset button writes μ_S = 250/S0 and
μ_I = 450/I0, not the μ_S = 450/S0 and μ_I = 250/I0 that the sliders
document as defaults: the two numerators are swapped. -/
theorem resetBaseline_mu_swapped :
    (resetToPaperBaseline 6768 34000).μ_S = 250 / 6768 ∧
    (resetToPaperBaseline 6768 34000).μ_I = 450 / 34000 ∧
    (resetToPaperBaseline 6768 34000).μ_S ≠ 450 / 6768 ∧
    (resetToPaperBaseline 6768 34000).μ_I ≠ 250 / 34000 ∧
    (sliderDefaults 6768 34000).μ_S = 450 / 6768 ∧
    (sliderDefaults 6768 34000).μ_I = 250 / 34000 := by
  refine ⟨rfl, rfl, ?_, ?_, rfl, rfl⟩ <;> norm_num [resetToPaperBaseline]

/-- C4 (counterexample): the sign property fails for the state I = 0: with
θ=0, β=1, γ=1, μ_I=0, S=2 we get Rt = 2 > 1 yet dI/dt = 0, so the claim
as stated over every state (S, I, R) is false. -/
theorem rt_sign_claim_counterexample :
    ¬ (∀ (Λ β θ γ μ_S μ_I S I R t : ℚ), 0 < γ + μ_I →
        (1 < rtPoint θ β γ μ_I S →
          0 < (jam_model t (S, I, R) Λ β θ γ μ_S μ_I).2.1) ∧
        (rtPoint θ β γ μ_I S < 1 →
          (jam_model t (S, I, R) Λ β θ γ μ_S μ_I).2.1 < 0)) := by
  intro hcl
  have h := (hcl 0 1 0 1 0 0 2 0 0 0 (by norm_num)).1 (by norm_num [rtPoint])
  norm_num [jam_model] at h

/-- C4 (amended): for every parameter set with γ + μ_I > 0 and every state
with I > 0, Rt > 1 implies dI/dt > 0 and Rt < 1 implies dI/dt < 0. -/
theorem rt_sign_of_pos_I (Λ β θ γ μ_S μ_I S I R t : ℚ)
    (hpos : 0 < γ + μ_I) (hI : 0 < I) :
    (1 < rtPoint θ β γ μ_I S →
      0 < (jam_model t (S, I, R) Λ β θ γ μ_S μ_I).2.1) ∧
    (rtPoint θ β γ μ_I S < 1 →
      (jam_model t (S, I, R) Λ β θ γ μ_S μ_I).2.1 < 0) := by
  have hform : (jam_model t (S, I, R) Λ β θ γ μ_S μ_I).2.1
      = ((1 + θ) * β * S - (γ + μ_I)) * I := by
    simp only [jam_model]
    ring
  constructor
  · intro h1
    simp only [rtPoint] at h1
    rw [one_lt_div hpos] at h1
    rw [hform]
    exact mul_pos (sub_pos.mpr h1) hI
  · intro h1
    simp only [rtPoint] at h1
    rw [div_lt_one hpos] at h1
    rw [hform]
    exact mul_neg_of_neg_of_pos (sub_neg.mpr h1) hI

/-- Witness for C4 (amended): with θ=0, β=1, γ=1, μ_I=0, S=2, I=1 we have
Rt = 2 > 1 and dI/dt = 1 > 0. -/
theorem rt_sign_of_pos_I_w :
    0 < (jam_model 0 ((2 : ℚ), 1, 0) 0 1 0 1 0 0).2.1 :=
  (rt_sign_of_pos_I 0 1 0 1 0 0 2 1 0 0 (by norm_num) (by norm_num)).1
    (by norm_num [rtPoint])

/-- The time grid linspace(0, T, n) has exactly n elements. -/
theorem linspace_length (T : ℚ) (n : ℕ) : (linspace T n).length = n := by
  rw [linspace, List.length_map, List.length_range]

/-- C5 (counterexample): in a run where the integrator stops right after
t = 0, the returned S has length 1 while the time grid has length 1000, so
the trajectory series do not all have length 1000 in every run. -/
theorem run_simulation_length_claim_counterexample :
    (run_simulation earlyStopSolver (6768, 34000, 0) 2262 1 29 0 0 0
      50).S.length = 1 ∧
    (run_simulation earlyStopSolver (6768, 34000, 0) 2262 1 29 0 0 0
      50).S.length ≠ 1000 ∧
    (run_simulation earlyStopSolver (6768, 34000, 0) 2262 1 29 0 0 0
      50).t.length = 1000 := by
  have h1 : (run_simulation earlyStopSolver (6768, 34000, 0) 2262 1 29 0 0
      0 50).S.length = 1 := by
    simp only [run_simulation, earlyStopSolver]
    rfl
  have h3 : (run_simulation earlyStopSolver (6768, 34000, 0) 2262 1 29 0 0
      0 50).t.length = 1000 := by
    simp only [run_simulation]
    exact linspace_length 50 1000
  exact ⟨h1, by rw [h1]; norm_num, h3⟩

/-- C5 (amended): S, I, R and Rt always share the length of the solver
output, the time grid always has length 1000, and whenever the solver
reaches all requested samples every series has length 1000. -/
theorem run_simulation_lengths (ivpSolver : IvpSolver) (y0 : Vec3)
    (Λ β θ γ μ_S μ_I T : ℚ) :
    let r := run_simulation ivpSolver y0 Λ β θ γ μ_S μ_I T
    let sol := ivpSolver (fun t y => jam_model t y Λ β θ γ μ_S μ_I) y0
      (linspace T 1000)
    r.S.length = sol.length ∧ r.I.length = sol.length ∧
    r.R.length = sol.length ∧ r.Rt.length = sol.length ∧
    r.t.length = 1000 ∧
    (sol.length = 1000 →
      r.S.length = 1000 ∧ r.I.length = 1000 ∧ r.R.length = 1000 ∧
      r.Rt.length = 1000) := by
  simp only [run_simulation, Rt_series, List.length_map, linspace_length,
    and_true, true_and, and_self, imp_self]
  try exact fun h => ⟨h, h, h, h⟩
  try trivial

/-- Witness for C5 (amended): a completed run has an Rt series of length
1000. -/
theorem run_simulation_lengths_w :
    (run_simulation fullLengthSolver (0, 0, 0) 0 0 0 0 0 0 1).Rt.length
      = 1000 :=
  ((run_simulation_lengths fullLengthSolver (0, 0, 0) 0 0 0 0 0 0
      1).2.2.2.2.2 (by simp [fullLengthSolver, linspace])).2.2.2

/-- The element at index i of linspace(0, T, n) is i·T/(n−1) when i < n,
and none past the end. -/
theorem linspace_getElem (T : ℚ) (n i : ℕ) :
    (linspace T n)[i]? =
      if i < n then some ((i : ℚ) * T / ((n : ℚ) - 1)) else none := by
  rw [linspace, List.getElem?_map]
  by_cases h : i < n
  · rw [List.getElem?_range h, if_pos h]
    rfl
  · rw [if_neg h, List.getElem?_eq_none]
    · rfl
    · rw [List.length_range]
      omega

/-- C6: for T > 0 the returned time grid has exactly 1000 elements, starts
at 0, ends at T, is strictly increasing, and consecutive samples differ by
the constant spacing T/999. -/
theorem linspace_time_grid (T : ℚ) (hT : 0 < T) :
    (linspace T 1000).length = 1000 ∧
    (linspace T 1000)[0]? = some 0 ∧
    (linspace T 1000)[999]? = some T ∧
    (∀ (i j : ℕ) (x y : ℚ), i < j → (linspace T 1000)[i]? = some x →
      (linspace T 1000)[j]? = some y → x < y) ∧
    (∀ (i : ℕ) (x y : ℚ), (linspace T 1000)[i]? = some x →
      (linspace T 1000)[i+1]? = some y → y - x = T / 999) := by
  refine ⟨linspace_length T 1000, ?_, ?_, ?_, ?_⟩
  · rw [linspace_getElem]
    norm_num
  · rw [linspace_getElem, if_pos (by norm_num)]
    congr 1
    push_cast
    norm_num [mul_comm, mul_div_assoc]
  · intro i j x y hij hx hy
    rw [linspace_getElem] at hx hy
    by_cases hj : j < 1000
    · have hi : i < 1000 := lt_trans hij hj
      rw [if_pos hi] at hx
      rw [if_pos hj] at hy
      obtain rfl := Option.some.inj hx
      obtain rfl := Option.some.inj hy
      have hnum : (i : ℚ) * T < (j : ℚ) * T := by
        have hc : (i : ℚ) < (j : ℚ) := by exact_mod_cast hij
        exact mul_lt_mul_of_pos_right hc hT
      have h999 : (0 : ℚ) < (1000 : ℚ) - 1 := by norm_num
      exact div_lt_div_of_pos_right hnum h999
    · rw [if_neg hj] at hy
      exact absurd hy (by simp)
  · intro i x y hx hy
    rw [linspace_getElem] at hx hy
    by_cases hi1 : i + 1 < 1000
    · have hi : i < 1000 := Nat.lt_of_succ_lt hi1
      rw [if_pos hi] at hx
      rw [if_pos hi1] at hy
      obtain rfl := Option.some.inj hx
      obtain rfl := Option.some.inj hy
      push_cast
      ring
    · rw [if_neg hi1] at hy
      exact absurd hy (by simp)

/-- Witness for C6: at T = 1 the grid ends at 1. -/
theorem linspace_time_grid_w : (linspace (1 : ℚ) 1000)[999]? = some 1 :=
  (linspace_time_grid 1 (by norm_num)).2.2.1

/-- A Runge-Kutta step over an identically-zero vector field leaves the
state unchanged: every stage derivative is zero. -/
theorem rk45Step_zero_field (f : ℚ → Vec3 → Vec3)
    (hf : ∀ t y, f t y = (0 : Vec3)) (t : ℚ) (y : Vec3) (h : ℚ) :
    rk45Step f t y h = y := by
  simp [rk45Step, hf]

/-- Integrating an identically-zero vector field returns the initial state
at every requested sample time. -/
theorem odeSolve_zero_field (f : ℚ → Vec3 → Vec3)
    (hf : ∀ t y, f t y = (0 : Vec3)) (t : ℚ) (y : Vec3) (ts : List ℚ) :
    odeSolve f t y ts = List.replicate ts.length y := by
  induction ts generalizing t y with
  | nil => simp [odeSolve]
  | cons t' rest ih =>
      simp [odeSolve, rk45Step_zero_field f hf, ih, List.replicate_succ]

/-- C7: with Λ = β = γ = μ_S = μ_I = 0 (and θ arbitrary) the vector field
vanishes, so the simulated trajectory is constant: every S sample equals
S0 and every I sample equals I0. -/
theorem zero_params_constant_trajectory (S0 I0 R0 θ T : ℚ) :
    (run_simulation_model (S0, I0, R0) 0 0 θ 0 0 0 T).S =
      List.replicate 1000 S0 ∧
    (run_simulation_model (S0, I0, R0) 0 0 θ 0 0 0 T).I =
      List.replicate 1000 I0 := by
  have hf : ∀ t y, jam_model t y 0 0 θ 0 0 0 = (0 : Vec3) := by
    intro t y
    simp [jam_model, Prod.ext_iff]
  have hsol : odeSolve (fun t y => jam_model t y 0 0 θ 0 0 0) 0
      (S0, I0, R0) (linspace T 1000) = List.replicate 1000 (S0, I0, R0) := by
    rw [odeSolve_zero_field _ hf, linspace_length]
  simp only [run_simulation_model, run_simulation, hsol, List.map_replicate]
  exact ⟨trivial, trivial⟩

/-- C8: with the paper-baseline parameters (θ=29, β=9/(6768·34000), γ=0,
μ_I=250/34000), the derived metric at the first sample, where S = S0 =
6768, is exactly 27/25 = 1.08. -/
theorem rt_baseline_anchor (S : List ℚ) (h : S[0]? = some 6768) :
    (Rt_series 29 (9 / (6768 * 34000)) 0 (250 / 34000) S)[0]? =
      some (27 / 25) ∧ (27 / 25 : ℚ) = 1.08 := by
  constructor
  · rw [Rt_series, List.getElem?_map, h]
    norm_num [rtPoint]
  · norm_num

/-- Witness for C8: the anchor evaluated on a concrete trajectory starting
at 6768. -/
theorem rt_baseline_anchor_w :
    (Rt_series 29 (9 / (6768 * 34000)) 0 (250 / 34000) [6768])[0]? =
      some (27 / 25) ∧ (27 / 25 : ℚ) = 1.08 :=
  rt_baseline_anchor [6768] rfl

/-- C9: when γ + μ_I = 0 the Rt computation has no guard: every sample is
produced by the very division whose divisor is 0. -/
theorem rt_unguarded_div_zero (θ β γ μ_I : ℚ) (h : γ + μ_I = 0)
    (S : List ℚ) :
    Rt_series θ β γ μ_I S = S.map fun s => ((1 + θ) * β * s) / 0 := by
  have hfun : rtPoint θ β γ μ_I = fun s => ((1 + θ) * β * s) / 0 := by
    funext s
    rw [rtPoint, h]
  rw [Rt_series, hfun]

/-- Witness for C9: a concrete series with γ = μ_I = 0. -/
theorem rt_unguarded_div_zero_w :
    Rt_series 1 1 0 0 [1] = [1].map fun s => ((1 + 1) * 1 * s) / 0 :=
  rt_unguarded_div_zero 1 1 0 0 (by norm_num) [1]

/-- C10: the three derivatives sum to Λ + θ·β·S·I: removal and decay
terms cancel between compartments. -/
theorem jam_model_sum (t : ℚ) (y : Vec3) (Λ β θ γ μ_S μ_I : ℚ) :
    (jam_model t y Λ β θ γ μ_S μ_I).1 +
    (jam_model t y Λ β θ γ μ_S μ_I).2.1 +
    (jam_model t y Λ β θ γ μ_S μ_I).2.2 =
      Λ + θ * β * y.1 * y.2.1 := by
  simp only [jam_model]
  ring
